import Mathlib

/-!
Verification development for the Pinmaker template pipeline.

Shallow embedding of the core components of the repository:
`src/image_analyzer.py` (ImageAnalyzer), `src/template_generator.py`
(TemplateGenerator), `src/preview_generator.py` (PreviewGenerator) and
`src/stock_photo_service.py` (StockPhotoService).

Modelling conventions:
* Python `float` arithmetic is modelled with exact rationals (`ℚ`); all
  comparisons proved here are far from representation boundaries.
* Python strings are Lean `String`s; the Python string operations used by
  the code (`str.strip`, `str.lower`, substring search, decimal rendering
  of `int`s) are given executable structural definitions below, because
  the corresponding Lean core functions do not reduce in the kernel.
* External libraries (OpenCV decoding, pytesseract OCR, sklearn KMeans,
  network I/O) are modelled as explicit inputs/oracles: the embedded
  functions receive the data those libraries would produce, and the
  control flow around them is translated from the source.
-/

namespace Pinmaker

/-! ### Python string primitives -/

/-- Decimal rendering of a natural number, as Python's `str(int)` /
f-string interpolation produces it. -/
def natStr (n : ℕ) : String :=
  if n = 0 then "0" else ⟨((Nat.digits 10 n).reverse.map Nat.digitChar)⟩

/-- Python `str.strip()` on the character list: drop ASCII whitespace from
both ends. -/
def stripChars (l : List Char) : List Char :=
  ((((l.dropWhile Char.isWhitespace).reverse).dropWhile Char.isWhitespace).reverse)

/-- Python `str.strip()`. -/
def pyStrip (s : String) : String := ⟨stripChars s.data⟩

/-- Python `str.lower()` (ASCII case folding suffices for the inputs the
code feeds it). -/
def pyLower (s : String) : String := ⟨s.data.map Char.toLower⟩

/-- Does `p` occur at the head of `l`? -/
def leadsList : List Char → List Char → Bool
  | [], _ => true
  | _ :: _, [] => false
  | a :: as, b :: bs => a == b && leadsList as bs

/-- Does `p` occur contiguously anywhere in `l`?  This is Python's
`re.search` for the literal (metacharacter-free) patterns the analyzer
uses. -/
def occursIn (p : List Char) : List Char → Bool
  | [] => p == []
  | c :: t => leadsList p (c :: t) || occursIn p t

/-- Substring test on strings: `containsSub s pat` is Python
`re.search(pat, s) is not None` for literal patterns `pat`. -/
def containsSub (s pat : String) : Bool := occursIn pat.data s.data

/-! ### StockPhotoService (`src/stock_photo_service.py`)

`get_random_image` tries the providers `unsplash`, `pexels`, `pixabay`
in order; `_get_image_from_api` returns `None` when the corresponding
API key is the empty string (`os.getenv(..., "")` default).  A provider
call is modelled as `Except String (Option String)`: `.error` is a raised
exception (caught and logged by the loop), `.ok none` is "no result",
`.ok (some url)` is a successful URL. -/

/-- Outcome of one provider network interaction. -/
abbrev ProviderOutcome := Except String (Option String)

/-- One iteration of the provider loop in `get_random_image`: skip if the
key is unset, catch any exception (`except Exception ... continue`). -/
def tryProvider (key : String) (outcome : ProviderOutcome) : Option String :=
  if key = "" then none
  else match outcome with
    | .ok r => r
    | .error _ => none

/-- The synthetic Lorem-Picsum fallback URL built by `_get_fallback_image`;
`seed` models `random.randint(1, 1000)`. -/
def fallbackUrl (width height seed : ℕ) : String :=
  "https://picsum.photos/" ++ natStr width ++ "/" ++ natStr height
    ++ "?random=" ++ natStr seed

/-- `StockPhotoService.get_random_image`: try the three providers in fixed
order, falling back to the synthetic placeholder URL. -/
def getRandomImage (unsplashKey pexelsKey pixabayKey : String)
    (unsplashOutcome pexelsOutcome pixabayOutcome : ProviderOutcome)
    (width height seed : ℕ) : Option String :=
  match tryProvider unsplashKey unsplashOutcome with
  | some url => some url
  | none =>
    match tryProvider pexelsKey pexelsOutcome with
    | some url => some url
    | none =>
      match tryProvider pixabayKey pixabayOutcome with
      | some url => some url
      | none => some (fallbackUrl width height seed)

/-! ### ImageAnalyzer: Pinterest recommendations
(`ImageAnalyzer._get_pinterest_recommendations`) -/

/-- Result of `_get_pinterest_recommendations`. -/
structure PinterestOpt where
  pinterestScore : ℤ
  recommendations : List String
  optimalForPinterest : Bool
  deriving Repr, DecidableEq

/-- `ImageAnalyzer._get_pinterest_recommendations`: start from 100,
deduct a fixed penalty per violated heuristic, clamp to [0,100].
`avgBrightness` is `np.mean(image_rgb)` and `uniqueColors` is
`len(np.unique(image_rgb.reshape(-1, 3), axis=0))`. -/
def getPinterestRecommendations (width height : ℕ) (avgBrightness : ℚ)
    (uniqueColors : ℕ) : PinterestOpt :=
  let aspectRatio : ℚ := (width : ℚ) / (height : ℚ)
  let recs0 : List String := []
  let score0 : ℤ := 100
  let (recs1, score1) :=
    if ¬((0.5 : ℚ) ≤ aspectRatio ∧ aspectRatio ≤ (0.8 : ℚ)) then
      (recs0 ++ ["Consider using a vertical aspect ratio (2:3 or 1:1.5) for better Pinterest performance"],
       score0 - 15)
    else (recs0, score0)
  let (recs2, score2) :=
    if width < 600 then
      (recs1 ++ ["Increase image width to at least 600px for better quality"], score1 - 10)
    else (recs1, score1)
  let (recs3, score3) :=
    if height < 900 then
      (recs2 ++ ["Increase image height to at least 900px for vertical pins"], score2 - 10)
    else (recs2, score2)
  let (recs4, score4) :=
    if avgBrightness < 50 then
      (recs3 ++ ["Image appears too dark - consider brightening for better visibility"], score3 - 10)
    else if (200 : ℚ) < avgBrightness then
      (recs3 ++ ["Image appears too bright - consider adjusting contrast"], score3 - 5)
    else (recs3, score3)
  let (recs5, score5) :=
    if uniqueColors < 100 then
      (recs4 ++ ["Consider adding more color variety to make the pin more engaging"], score4 - 5)
    else (recs4, score4)
  let pinterestScore : ℤ := max 0 (min 100 score5)
  { pinterestScore := pinterestScore
    recommendations := recs5
    optimalForPinterest := decide (80 ≤ pinterestScore) }

/-! ### ImageAnalyzer: color analysis (`ImageAnalyzer._analyze_colors`)

The sklearn `KMeans(n_clusters, random_state=42, n_init=10)` call is
modelled as an oracle function from the sample list and cluster count to
per-sample labels and cluster centers; the fixed `random_state` makes the
library call a deterministic function of exactly these inputs, which is
what the oracle is.  The presentational `hex` string and the
`webcolors`-derived `name` of a swatch are external-library formatting and
are modelled out. -/

/-- An RGB pixel (values 0..255). -/
abbrev Pixel := ℕ × ℕ × ℕ

/-- A dominant-color entry of `_analyze_colors` (hex/name formatting
modelled out). -/
structure ColorSwatch where
  rgb : Pixel
  percentage : ℚ
  deriving Repr, DecidableEq

/-- `np.mean(pixels, axis=1)` for one pixel: mean of its three channels. -/
def pixelMean (p : Pixel) : ℚ := ((p.1 : ℚ) + p.2.1 + p.2.2) / 3

/-- The mask `20 < mean < 235` of `_analyze_colors` (note: strict on both
sides in the source). -/
def filteredPixels (pixels : List Pixel) : List Pixel :=
  pixels.filter (fun p => decide ((20 : ℚ) < pixelMean p) && decide (pixelMean p < 235))

/-- The pixel list actually handed to clustering: the filtered pixels,
or — when every pixel was filtered out — the full unfiltered list
(`if len(filtered_pixels) == 0: filtered_pixels = pixels`). -/
def clusteringInput (pixels : List Pixel) : List Pixel :=
  if filteredPixels pixels = [] then pixels else filteredPixels pixels

/-- `n_colors = min(8, len(filtered_pixels))`. -/
def nColors (pixels : List Pixel) : ℕ := min 8 (clusteringInput pixels).length

/-- Oracle for the seeded `KMeans.fit`: sample list and cluster count to
(per-sample labels, cluster centers). -/
abbrev KMeansOracle := List Pixel → ℕ → List ℕ × (ℕ → Pixel)

/-- `Counter(labels).most_common()` key order: distinct labels sorted by
descending count, ties kept in first-occurrence order (Python's `Counter`
preserves insertion order and `sorted` is stable). -/
def rankedLabels (labels : List ℕ) : List ℕ :=
  (labels.eraseDups).mergeSort (fun a b => decide (labels.count b ≤ labels.count a))

/-- Channel-wise mean of a pixel list, truncated to int
(`np.mean(..., axis=0).astype(int)`). -/
def avgPixel (pixels : List Pixel) : Pixel :=
  (((pixels.map (fun p => (p.1 : ℚ))).sum / pixels.length).floor.toNat,
   ((pixels.map (fun p => (p.2.1 : ℚ))).sum / pixels.length).floor.toNat,
   ((pixels.map (fun p => (p.2.2 : ℚ))).sum / pixels.length).floor.toNat)

/-- `ImageAnalyzer._analyze_color_temperature` on the channel-wise mean
of all pixels. -/
def analyzeColorTemperature (avg : ℚ × ℚ × ℚ) : String :=
  if avg.1 > avg.2.1 ∧ avg.1 > avg.2.2 then "warm"
  else if avg.2.2 > avg.1 ∧ avg.2.2 > avg.2.1 then "cool"
  else "neutral"

/-- `ImageAnalyzer._analyze_color_mood` from the first dominant color. -/
def analyzeColorMood (dominantColors : List ColorSwatch) : String :=
  match dominantColors with
  | [] => "neutral"
  | c :: _ =>
    let r := c.rgb.1
    let g := c.rgb.2.1
    let b := c.rgb.2.2
    if 150 < r ∧ g < 100 ∧ b < 100 then "energetic"
    else if 150 < g ∧ r < 100 ∧ b < 100 then "natural"
    else if 150 < b ∧ r < 100 ∧ g < 100 then "calm"
    else if 150 < r ∧ 150 < g ∧ b < 100 then "cheerful"
    else if r < 100 ∧ g < 100 ∧ b < 100 then "sophisticated"
    else "balanced"

/-- Result of `_analyze_colors`. -/
structure ColorAnalysis where
  dominantColors : List ColorSwatch
  colorTemperature : String
  colorMood : String
  averageBrightness : ℚ
  colorDiversity : ℕ
  deriving Repr

/-- `ImageAnalyzer._analyze_colors`: filter clipping outliers, cluster,
rank clusters by population (with the single-color fallback when fewer
than two samples survive). -/
def analyzeColors (pixels : List Pixel) (kmeans : KMeansOracle) : ColorAnalysis :=
  let input := clusteringInput pixels
  let dominantColors :=
    if 1 < nColors pixels then
      let fit := kmeans input (nColors pixels)
      let labels := fit.1
      let centers := fit.2
      (rankedLabels labels).map (fun i =>
        { rgb := centers i
          percentage := (labels.count i : ℚ) / labels.length * 100 })
    else
      [{ rgb := avgPixel input, percentage := 100 }]
  let avgColor : ℚ × ℚ × ℚ :=
    ((pixels.map (fun p => (p.1 : ℚ))).sum / pixels.length,
     (pixels.map (fun p => (p.2.1 : ℚ))).sum / pixels.length,
     (pixels.map (fun p => (p.2.2 : ℚ))).sum / pixels.length)
  { dominantColors := dominantColors
    colorTemperature := analyzeColorTemperature avgColor
    colorMood := analyzeColorMood dominantColors
    averageBrightness :=
      ((pixels.map (fun p => ((p.1 + p.2.1 + p.2.2 : ℕ) : ℚ))).sum) / (3 * pixels.length)
    colorDiversity := dominantColors.length }

/-! ### ImageAnalyzer: text analysis (`ImageAnalyzer._analyze_text`,
`_analyze_fonts`, `_analyze_text_layout`)

The pytesseract `image_to_data` call is modelled as a list of raw OCR
words (text, integer confidence on tesseract's 0..100 scale — `-1` for
structural entries — and bounding box). -/

/-- One row of `pytesseract.image_to_data(...)` output. -/
structure OCRWord where
  text : String
  conf : ℤ
  left : ℕ
  top : ℕ
  width : ℕ
  height : ℕ
  deriving Repr, DecidableEq

/-- Bounding box as stored in a text region. -/
structure TextBBox where
  x : ℕ
  y : ℕ
  width : ℕ
  height : ℕ
  deriving Repr, DecidableEq

/-- A retained text region of `_analyze_text`. -/
structure TextRegion where
  text : String
  confidence : ℤ
  bbox : TextBBox
  deriving Repr, DecidableEq

/-- The filtering loop of `_analyze_text`: keep a word iff its confidence
exceeds 30 and its stripped text is nonempty. -/
def textRegionsOf (data : List OCRWord) : List TextRegion :=
  data.filterMap (fun w =>
    if 30 < w.conf ∧ pyStrip w.text ≠ "" then
      some { text := pyStrip w.text
             confidence := w.conf
             bbox := { x := w.left, y := w.top, width := w.width, height := w.height } }
    else none)

/-- Font-name indicator patterns from `ImageAnalyzer.__init__` (all are
literal regexes, so matching is substring search). -/
def serifPatterns : List String :=
  ["times", "georgia", "garamond", "baskerville", "minion", "caslon", "palatino"]

/-- Sans-serif indicator patterns. -/
def sansSerifPatterns : List String :=
  ["arial", "helvetica", "calibri", "verdana", "tahoma", "trebuchet", "futura", "avenir"]

/-- Script indicator patterns. -/
def scriptPatterns : List String :=
  ["script", "brush", "handwriting", "cursive", "calligraphy", "signature"]

/-- Display indicator patterns. -/
def displayPatterns : List String :=
  ["impact", "bebas", "oswald", "montserrat", "roboto", "open sans", "lato"]

/-- Per-region font-category classification of `_analyze_fonts` (the
`if/elif` pattern chain over the lowercased region text). -/
def fontCategoryOf (text : String) : String :=
  let t := pyLower text
  if serifPatterns.any (fun p => containsSub t p) then "serif"
  else if sansSerifPatterns.any (fun p => containsSub t p) then "sans-serif"
  else if scriptPatterns.any (fun p => containsSub t p) then "script"
  else if displayPatterns.any (fun p => containsSub t p) then "display"
  else "unknown"

/-- Result of `_analyze_fonts`: the empty-input shape
(`{"detected_fonts": [], "font_categories": []}`) or the statistics
record.  `categories` is the per-region list the source aggregates into a
`Counter` dict (the dict's counts are exactly the multiplicities of this
list); the source also rounds the average to one decimal for display,
kept exact here. -/
inductive FontAnalysis where
  | empty
  | stats (averageFontSize : ℚ) (fontSizeRange : ℕ × ℕ)
      (categories : List String) (primaryFontCategory : String)
  deriving Repr, DecidableEq

/-- The per-region category list underlying a font analysis (empty for the
empty-input shape). -/
def FontAnalysis.categoriesList : FontAnalysis → List String
  | .empty => []
  | .stats _ _ categories _ => categories

/-- `ImageAnalyzer._analyze_fonts`. -/
def analyzeFonts (regions : List TextRegion) : FontAnalysis :=
  if regions = [] then .empty
  else
    let fontSizes : List ℕ := regions.map (fun r => r.bbox.height)
    let categories := regions.map (fun r => fontCategoryOf r.text)
    let avg : ℚ := ((fontSizes.map (fun n => (n : ℚ))).sum) / (fontSizes.length : ℚ)
    let primary := ((categories.eraseDups).mergeSort
        (fun a b => decide (categories.count b ≤ categories.count a))).headD ("unknown")
    .stats avg (fontSizes.min?.getD 0, fontSizes.max?.getD 0) categories primary

/-- Result of `_analyze_text_layout`: the no-text shape or the layout
record (the source rounds coverage to two decimals for display, kept
exact here). -/
inductive TextLayout where
  | noText
  | layout (coverage : ℚ) (distribution : String) (regionsCount : ℕ)
  deriving Repr, DecidableEq

/-- `ImageAnalyzer._analyze_text_layout`. -/
def analyzeTextLayout (regions : List TextRegion) (width height : ℕ) : TextLayout :=
  if regions = [] then .noText
  else
    let totalArea : ℕ := (regions.map (fun r => r.bbox.width * r.bbox.height)).sum
    let coverage : ℚ := (totalArea : ℚ) / ((width : ℚ) * height) * 100
    let ys := regions.map (fun r => (r.bbox.y : ℚ))
    let topThird : ℚ := (height : ℚ) / 3
    let middleThird : ℚ := 2 * (height : ℚ) / 3
    let topCount := (ys.filter (fun y => decide (y < topThird))).length
    let middleCount := (ys.filter (fun y => decide (topThird ≤ y ∧ y < middleThird))).length
    let bottomCount := (ys.filter (fun y => decide (middleThird ≤ y))).length
    let distribution :=
      if middleCount < topCount ∧ bottomCount < topCount then "top-heavy"
      else if middleCount < bottomCount ∧ topCount < bottomCount then "bottom-heavy"
      else if topCount < middleCount ∧ bottomCount < middleCount then "center-focused"
      else "distributed"
    .layout coverage distribution regions.length

/-- Result of `_analyze_text`. -/
structure TextAnalysis where
  extractedText : String
  wordCount : ℕ
  textRegions : List TextRegion
  fontAnalysis : FontAnalysis
  textLayout : TextLayout
  hasText : Bool
  deriving Repr, DecidableEq

/-- The fallback value the `except` branch of `_analyze_text` returns
(empty dicts for the font/layout sub-fields, modelled by the two empty
markers). -/
def defaultTextAnalysis : TextAnalysis :=
  { extractedText := ""
    wordCount := 0
    textRegions := []
    fontAnalysis := .empty
    textLayout := .noText
    hasText := false }

/-- The `try` body of `_analyze_text` on successfully produced OCR data. -/
def analyzeTextCore (data : List OCRWord) (width height : ℕ) : TextAnalysis :=
  let regions := textRegionsOf data
  let confidentText := regions.map (fun r => r.text)
  { extractedText := String.intercalate (" ") confidentText
    wordCount := confidentText.length
    textRegions := regions
    fontAnalysis := analyzeFonts regions
    textLayout := analyzeTextLayout regions width height
    hasText := decide (0 < confidentText.length) }

/-- `ImageAnalyzer._analyze_text`: any OCR exception is caught and the
default empty analysis returned. -/
def analyzeText (ocr : Except String (List OCRWord)) (width height : ℕ) : TextAnalysis :=
  match ocr with
  | .ok data => analyzeTextCore data width height
  | .error _ => defaultTextAnalysis

/-! ### ImageAnalyzer: composition (`_analyze_rule_of_thirds`,
`_analyze_symmetry`)

The Canny edge map and the grayscale image are modelled as functions
`row → column → value` with explicit dimensions; a `cv2.Canny` output has
entries in `{0, 255}` and a grayscale image has entries in `[0, 255]`. -/

/-- Index list of the numpy slice `[a:b]` on an axis of length `limit`
(for the non-negative bounds the analyzer produces). -/
def sliceRange (a b limit : ℕ) : List ℕ := List.range' a (min b limit - a)

/-- `np.sum(edges[:, a:b])` on an image with `height` rows and `width`
columns. -/
def bandSumCols (edges : ℕ → ℕ → ℕ) (height a b width : ℕ) : ℕ :=
  ((List.range height).map (fun r => ((sliceRange a b width).map (fun c => edges r c)).sum)).sum

/-- `np.sum(edges[a:b, :])` on an image with `height` rows and `width`
columns. -/
def bandSumRows (edges : ℕ → ℕ → ℕ) (width a b height : ℕ) : ℕ :=
  ((sliceRange a b height).map (fun r => ((List.range width).map (fun c => edges r c)).sum)).sum

/-- Mean edge value of the clipped `21×21` window around one thirds
intersection (`np.sum(region) / (region.shape[0] * region.shape[1])`). -/
def intersectionScore (edges : ℕ → ℕ → ℕ) (height width x y : ℕ) : ℚ :=
  let rows := sliceRange (y - 10) (y + 11) height
  let cols := sliceRange (x - 10) (x + 11) width
  ((rows.map (fun r => ((cols.map (fun c => edges r c)).sum))).sum : ℚ)
    / ((rows.length : ℚ) * (cols.length : ℚ))

/-- Result of `_analyze_rule_of_thirds`. -/
structure RuleOfThirds where
  lineAlignmentScore : ℚ
  intersectionScores : List ℚ
  followsRule : Bool
  deriving Repr, DecidableEq

/-- `ImageAnalyzer._analyze_rule_of_thirds` on the edge map.  The Python
`max(intersection_scores)` over the four (non-negative) scores is modelled
by a fold from 0. -/
def analyzeRuleOfThirds (edges : ℕ → ℕ → ℕ) (height width : ℕ) : RuleOfThirds :=
  let vLine1 := width / 3
  let vLine2 := 2 * width / 3
  let hLine1 := height / 3
  let hLine2 := 2 * height / 3
  let v1Density : ℚ := (bandSumCols edges height (vLine1 - 2) (vLine1 + 3) width : ℚ) / ((height : ℚ) * 5)
  let v2Density : ℚ := (bandSumCols edges height (vLine2 - 2) (vLine2 + 3) width : ℚ) / ((height : ℚ) * 5)
  let h1Density : ℚ := (bandSumRows edges width (hLine1 - 2) (hLine1 + 3) height : ℚ) / ((width : ℚ) * 5)
  let h2Density : ℚ := (bandSumRows edges width (hLine2 - 2) (hLine2 + 3) height : ℚ) / ((width : ℚ) * 5)
  let avgDensity := (v1Density + v2Density + h1Density + h2Density) / 4
  let pts := [(vLine1, hLine1), (vLine1, hLine2), (vLine2, hLine1), (vLine2, hLine2)]
  let scores := pts.map (fun p => intersectionScore edges height width p.1 p.2)
  { lineAlignmentScore := avgDensity
    intersectionScores := scores
    followsRule :=
      decide ((0.1 : ℚ) < avgDensity) || decide ((0.2 : ℚ) < scores.foldl max 0) }

/-- Mean of a rational list (`0` on the empty list, which arises only for
degenerate zero-size images). -/
def meanQ (l : List ℚ) : ℚ := l.sum / (l.length : ℚ)

/-- Numerator `Σ (xᵢ - x̄)(yᵢ - ȳ)` of the Pearson correlation. -/
def corrNum (xs ys : List ℚ) : ℚ :=
  ((xs.zip ys).map (fun p => (p.1 - meanQ xs) * (p.2 - meanQ ys))).sum

/-- Square of the Pearson denominator, `Σ (xᵢ - x̄)² · Σ (yᵢ - ȳ)²`. -/
def corrDenSq (xs ys : List ℚ) : ℚ :=
  ((xs.map (fun x => (x - meanQ xs) ^ 2)).sum) * ((ys.map (fun y => (y - meanQ ys) ^ 2)).sum)

/-- Rational square root, exact on the perfect squares arising in the
concrete evaluations below (the source computes a floating-point sqrt
inside `np.corrcoef`). -/
def sqrtQ (q : ℚ) : ℚ := (Nat.sqrt q.num.toNat : ℚ) / (Nat.sqrt q.den : ℚ)

/-- `np.corrcoef(xs, ys)[0, 1]`: `none` models the NaN numpy produces when
either argument has zero variance. -/
def corrcoefQ (xs ys : List ℚ) : Option ℚ :=
  if corrDenSq xs ys = 0 then none
  else some (corrNum xs ys / sqrtQ (corrDenSq xs ys))

/-- Row-major flattening of the sub-image taken at the given row and
column index lists. -/
def flattenRegion (gray : ℕ → ℕ → ℕ) (rows cols : List ℕ) : List ℚ :=
  rows.flatMap (fun r => cols.map (fun c => (gray r c : ℚ)))

/-- The `vertical_symmetry` value of `_analyze_symmetry` after its NaN
normalization: correlation between the left half and the mirrored right
half, both cropped to `width/2` columns. -/
def verticalSymmetry (gray : ℕ → ℕ → ℕ) (height width : ℕ) : ℚ :=
  let minWidth := width / 2
  let leftFlat := flattenRegion gray (List.range height) (List.range minWidth)
  let rightFlat := flattenRegion gray (List.range height)
    ((List.range minWidth).map (fun j => width - 1 - j))
  (corrcoefQ leftFlat rightFlat).getD 0

/-- The `horizontal_symmetry` value of `_analyze_symmetry` after its NaN
normalization. -/
def horizontalSymmetry (gray : ℕ → ℕ → ℕ) (height width : ℕ) : ℚ :=
  let minHeight := height / 2
  let topFlat := flattenRegion gray (List.range minHeight) (List.range width)
  let bottomFlat := flattenRegion gray
    ((List.range minHeight).map (fun i => height - 1 - i)) (List.range width)
  (corrcoefQ topFlat bottomFlat).getD 0

/-- Result of `_analyze_symmetry`.  (`is_symmetric` in the source compares
the raw possibly-NaN floats, where a NaN comparison is false; with `none`
collapsed to `0` the comparison below agrees on all NaN cases since
`0 > 0.7` is false.) -/
structure SymmetryResult where
  verticalSymmetry : ℚ
  horizontalSymmetry : ℚ
  isSymmetric : Bool
  deriving Repr, DecidableEq

/-- `ImageAnalyzer._analyze_symmetry`. -/
def analyzeSymmetry (gray : ℕ → ℕ → ℕ) (height width : ℕ) : SymmetryResult :=
  let v := verticalSymmetry gray height width
  let h := horizontalSymmetry gray height width
  { verticalSymmetry := v
    horizontalSymmetry := h
    isSymmetric := decide ((0.7 : ℚ) < max v h) }

/-! ### ImageAnalyzer: orchestration (`ImageAnalyzer.analyze_image`)

`cv2.imread` is modelled by an `Option` (decode failure is `none`); each
heavyweight sub-analyzer is an oracle returning `Except String`, `.error`
modelling a raised exception.  `_get_image_info` is pure arithmetic and is
a plain function.  The Python dict literal evaluates its values in order
(info, colors, text, layout, background, visual elements, Pinterest), and
`analyze_image`'s own `except` clause re-raises after logging — only
`_analyze_text` catches its own failure internally. -/

/-- The assembled full-mode analysis dictionary. -/
structure AnalysisResults (α β γ δ ε : Type) where
  imageInfo : α
  colorAnalysis : β
  textAnalysis : TextAnalysis
  layoutAnalysis : γ
  backgroundAnalysis : δ
  visualElements : ε
  pinterestOptimization : PinterestOpt

/-- `ImageAnalyzer.analyze_image`. -/
def analyzeImage {Img α β γ δ ε : Type}
    (decodeResult : Option Img)
    (imageInfoF : Img → α)
    (colorsF : Img → Except String β)
    (ocrF : Img → Except String (List OCRWord))
    (dims : Img → ℕ × ℕ)
    (layoutF : Img → Except String γ)
    (backgroundF : Img → Except String δ)
    (visualF : Img → Except String ε)
    (pinterestF : Img → Except String PinterestOpt) :
    Except String (AnalysisResults α β γ δ ε) :=
  match decodeResult with
  | none => .error ("Could not load image")
  | some img =>
    match colorsF img with
    | .error e => .error e
    | .ok colorRes =>
      let textRes := analyzeText (ocrF img) (dims img).1 (dims img).2
      match layoutF img with
      | .error e => .error e
      | .ok layoutRes =>
        match backgroundF img with
        | .error e => .error e
        | .ok bgRes =>
          match visualF img with
          | .error e => .error e
          | .ok visRes =>
            match pinterestF img with
            | .error e => .error e
            | .ok pinRes =>
              .ok { imageInfo := imageInfoF img
                    colorAnalysis := colorRes
                    textAnalysis := textRes
                    layoutAnalysis := layoutRes
                    backgroundAnalysis := bgRes
                    visualElements := visRes
                    pinterestOptimization := pinRes }

/-! ### TemplateGenerator (`src/template_generator.py`)

The filesystem side of `create_template` (template id from
`datetime.now()`/`random.randint`, directory creation, file write) is I/O
and is modelled out; everything the claims touch — style resolution,
content mapping, placeholder generation/extraction and the SVG string —
is embedded.  Python `//` is floor division, hence `Int.fdiv` below. -/

/-- Decimal rendering of a Python `int`. -/
def intStr (z : ℤ) : String := if z < 0 then "-" ++ natStr z.natAbs else natStr z.natAbs

/-- One named visual style from `TemplateGenerator.template_styles`. -/
structure TemplateStyle where
  backgroundColor : String
  primaryColor : String
  secondaryColor : String
  textColor : String
  fontFamily : String
  borderRadius : ℕ
  padding : ℕ
  deriving Repr, DecidableEq

/-- The `"modern"` style configuration. -/
def modernStyle : TemplateStyle :=
  { backgroundColor := "#FFFFFF", primaryColor := "#2196F3", secondaryColor := "#FFC107"
    textColor := "#333333", fontFamily := "Arial", borderRadius := 8, padding := 20 }

/-- The `"minimal"` style configuration. -/
def minimalStyle : TemplateStyle :=
  { backgroundColor := "#F8F9FA", primaryColor := "#6C757D", secondaryColor := "#E9ECEF"
    textColor := "#212529", fontFamily := "Helvetica", borderRadius := 0, padding := 30 }

/-- The `"vibrant"` style configuration. -/
def vibrantStyle : TemplateStyle :=
  { backgroundColor := "#FF6B6B", primaryColor := "#4ECDC4", secondaryColor := "#45B7D1"
    textColor := "#FFFFFF", fontFamily := "Impact", borderRadius := 15, padding := 15 }

/-- The fixed style registry `TemplateGenerator.template_styles`. -/
def templateStyles : List (String × TemplateStyle) :=
  [("modern", modernStyle), ("minimal", minimalStyle), ("vibrant", vibrantStyle)]

/-- `self.template_styles.get(style, self.template_styles["modern"])` in
`create_template`. -/
def resolveStyle (style : String) : TemplateStyle :=
  (templateStyles.lookup style).getD modernStyle

/-- The numbered text placeholder tag (1-based), `f"{{TEXT_{i+1}}}"`. -/
def textTag (n : ℕ) : String := "\x7bTEXT_" ++ natStr n ++ "\x7d"

/-- The numbered image placeholder tag (1-based), `f"{{IMAGE_{i+1}}}"`. -/
def imageTag (n : ℕ) : String := "\x7bIMAGE_" ++ natStr n ++ "\x7d"

/-- A raw text element of the incoming analysis dict; `none` models an
absent key (`element.get(key, default)` applies the default). -/
structure RawTextElement where
  content : Option String
  bbox : Option (List ℤ)
  confidence : Option ℚ
  suggestedPlaceholder : Option String
  deriving Repr

/-- A raw image region of the incoming analysis dict. -/
structure RawImageRegion where
  bbox : Option (List ℤ)
  type : Option String
  suggestedContent : Option String
  deriving Repr

/-- `TemplateGenerator._estimate_font_size`: 70% of the bbox height,
clamped to `[12, 48]`; any indexing error falls back to 16.  (`int(h*0.7)`
is modelled as the exact `⌊0.7·h⌋`; binary-float rounding can differ by
one for some heights, which no claim depends on.) -/
def estimateFontSize (bbox : List ℤ) : ℤ :=
  match bbox with
  | _ :: y1 :: _ :: y2 :: _ => max 12 (min 48 ((7 * ((y2 - y1 : ℤ) : ℚ) / 10).floor))
  | _ => 16

/-- A processed text element (`_process_text_elements` output). -/
structure ProcessedTextElement where
  id : String
  content : String
  bbox : List ℤ
  confidence : ℚ
  fontSize : ℤ
  placeholderTag : String
  suggestedPlaceholder : String
  deriving Repr

/-- A processed image region (`_process_image_regions` output). -/
structure ProcessedImageRegion where
  id : String
  bbox : List ℤ
  type : String
  placeholderTag : String
  suggestedContent : String
  deriving Repr

/-- `TemplateGenerator._process_text_elements`. -/
def processTextElements (elems : List RawTextElement) : List ProcessedTextElement :=
  elems.enum.map (fun p =>
    let i := p.1
    let element := p.2
    { id := "text_" ++ natStr (i + 1)
      content := element.content.getD ("Text Element " ++ natStr (i + 1))
      bbox := element.bbox.getD [0, 0, 100, 20]
      confidence := element.confidence.getD (0.8 : ℚ)
      fontSize := estimateFontSize (element.bbox.getD [0, 0, 100, 20])
      placeholderTag := textTag (i + 1)
      suggestedPlaceholder := element.suggestedPlaceholder.getD (textTag (i + 1)) })

/-- `TemplateGenerator._process_image_regions`. -/
def processImageRegions (regions : List RawImageRegion) : List ProcessedImageRegion :=
  regions.enum.map (fun p =>
    let i := p.1
    let region := p.2
    { id := "image_" ++ natStr (i + 1)
      bbox := region.bbox.getD [0, 0, 100, 100]
      type := region.type.getD ("placeholder")
      placeholderTag := imageTag (i + 1)
      suggestedContent := region.suggestedContent.getD ("Image placeholder") })

/-- The 15 fixed common content placeholders of
`TemplateGenerator._generate_placeholders`. -/
def commonPlaceholders : List String :=
  ["\x7bTITLE\x7d", "\x7bSUBTITLE\x7d", "\x7bDESCRIPTION\x7d", "\x7bAUTHOR\x7d",
   "\x7bDATE\x7d", "\x7bCATEGORY\x7d", "\x7bTAG\x7d", "\x7bQUOTE\x7d",
   "\x7bCTA_TEXT\x7d", "\x7bPRICE\x7d", "\x7bDOMAIN\x7d", "\x7bSITE_NAME\x7d",
   "\x7bBRAND_NAME\x7d", "\x7bURL\x7d", "\x7bUSERNAME\x7d"]

/-- `TemplateGenerator._generate_placeholders`: the per-region numbered
tags plus the common tags, as `sorted(list(set(...)))` — Python's set
collapses duplicates and `sorted` orders lexicographically, modelled by
`dedup` followed by a merge sort under the string order. -/
def generatePlaceholders (textElements : List RawTextElement)
    (imageRegions : List RawImageRegion) : List String :=
  let tags :=
    ((List.range textElements.length).map (fun i => textTag (i + 1)))
      ++ ((List.range imageRegions.length).map (fun i => imageTag (i + 1)))
      ++ commonPlaceholders
  (tags.dedup).mergeSort (fun a b => decide (a ≤ b))

/-- One record of `_extract_placeholders_from_mapping` (text entries also
carry the element's content). -/
inductive MappedPlaceholder where
  | text (id tag content : String) (bbox : List ℤ)
  | image (id tag : String) (bbox : List ℤ)
  deriving Repr

/-- The `tag` field of a mapped placeholder. -/
def MappedPlaceholder.tag : MappedPlaceholder → String
  | .text _ t _ _ => t
  | .image _ t _ => t

/-- `TemplateGenerator._extract_placeholders_from_mapping`. -/
def extractPlaceholdersFromMapping (textElements : List ProcessedTextElement)
    (imageRegions : List ProcessedImageRegion) : List MappedPlaceholder :=
  (textElements.enum.map (fun p =>
      MappedPlaceholder.text ("TEXT_" ++ natStr (p.1 + 1)) (textTag (p.1 + 1))
        p.2.content p.2.bbox))
    ++ (imageRegions.enum.map (fun p =>
      MappedPlaceholder.image ("IMAGE_" ++ natStr (p.1 + 1)) (imageTag (p.1 + 1)) p.2.bbox))

/-- The `layout_structure` part of the analysis used by the SVG builder. -/
structure LayoutStructure where
  hasBorder : Bool
  deriving Repr, DecidableEq

/-- The content mapping assembled by `_create_content_mapping` (the color
palette and font suggestions it also carries are processed below but not
consumed by the SVG builder). -/
structure ContentMapping where
  textElements : List ProcessedTextElement
  imageRegions : List ProcessedImageRegion
  colorPalette : List String
  fontSuggestions : List String
  layoutStructure : LayoutStructure
  placeholders : List String
  deriving Repr

/-- `TemplateGenerator._process_colors` restricted to the hex strings it
extracts (the `dict|str` duality of the source input collapses to the hex
value). -/
def processColors (colors : List String) : List String :=
  if colors = [] then ["#2196F3", "#FFC107", "#4CAF50"] else colors.take 5

/-- `TemplateGenerator._process_fonts`: first-occurrence deduplication,
default list when empty, capped at three. -/
def processFonts (fonts : List String) : List String :=
  let suggestions := fonts.eraseDups
  (if suggestions = [] then ["Arial", "Helvetica", "Times New Roman"] else suggestions).take 3

/-- `TemplateGenerator._create_content_mapping`. -/
def createContentMapping (textElements : List RawTextElement)
    (imageRegions : List RawImageRegion) (colors : List String)
    (fonts : List String) (layoutStructure : LayoutStructure) : ContentMapping :=
  { textElements := processTextElements textElements
    imageRegions := processImageRegions imageRegions
    colorPalette := processColors colors
    fontSuggestions := processFonts fonts
    layoutStructure := layoutStructure
    placeholders := generatePlaceholders textElements imageRegions }

/-- `TemplateGenerator._add_background`. -/
def addBackground (cfg : TemplateStyle) (width height : ℕ) : String :=
  "  <rect width=\"" ++ natStr width ++ "\" height=\"" ++ natStr height
    ++ "\" fill=\"" ++ cfg.backgroundColor ++ "\"/>\n"

/-- `TemplateGenerator._add_image_placeholders` (the source unpacks a
4-element bbox; shorter lists raise and are swallowed by
`create_template`'s blanket failure, not modelled). -/
def addImagePlaceholders (imageRegions : List ProcessedImageRegion)
    (_cfg : TemplateStyle) : String :=
  String.join (imageRegions.map (fun region =>
    let bbox := region.bbox
    let x := bbox.getD 0 0
    let y := bbox.getD 1 0
    let x2 := bbox.getD 2 0
    let y2 := bbox.getD 3 0
    let width := x2 - x
    let height := y2 - y
    let textX := x + width.fdiv 2
    let textY := y + height.fdiv 2
    let fontSize := min 16 (height.fdiv 4)
    "  <rect x=\"" ++ intStr x ++ "\" y=\"" ++ intStr y ++ "\" width=\"" ++ intStr width
      ++ "\" height=\"" ++ intStr height
      ++ "\" fill=\"#e0e0e0\" stroke=\"#cccccc\" stroke-width=\"2\" stroke-dasharray=\"5,5\"/>\n"
      ++ "  <text x=\"" ++ intStr textX ++ "\" y=\"" ++ intStr textY
      ++ "\" text-anchor=\"middle\" font-size=\"" ++ intStr fontSize
      ++ "\" fill=\"#666666\">" ++ region.placeholderTag ++ "</text>\n"))

/-- `TemplateGenerator._add_text_elements`. -/
def addTextElements (textElements : List ProcessedTextElement)
    (cfg : TemplateStyle) : String :=
  String.join (textElements.map (fun element =>
    let x := element.bbox.getD 0 0
    let y := element.bbox.getD 1 0
    "  <text x=\"" ++ intStr x ++ "\" y=\"" ++ intStr (y + element.fontSize)
      ++ "\" font-family=\"" ++ cfg.fontFamily ++ "\" font-size=\"" ++ intStr element.fontSize
      ++ "\" fill=\"" ++ cfg.textColor ++ "\">" ++ element.placeholderTag ++ "</text>\n"))

/-- `TemplateGenerator._add_layout_elements`. -/
def addLayoutElements (layoutStructure : LayoutStructure) (cfg : TemplateStyle) : String :=
  if layoutStructure.hasBorder then
    "  <rect x=\"10\" y=\"10\" width=\"780\" height=\"580\" fill=\"none\" stroke=\""
      ++ cfg.primaryColor ++ "\" stroke-width=\"2\" rx=\"" ++ natStr cfg.borderRadius ++ "\"/>\n"
  else ""

/-- `TemplateGenerator._create_svg_template`. -/
def createSvgTemplate (mapping : ContentMapping) (cfg : TemplateStyle)
    (width height : ℕ) : String :=
  "<svg width=\"" ++ natStr width ++ "\" height=\"" ++ natStr height
      ++ "\" xmlns=\"http://www.w3.org/2000/svg\">\n"
    ++ addBackground cfg width height
    ++ addImagePlaceholders mapping.imageRegions cfg
    ++ addTextElements mapping.textElements cfg
    ++ addLayoutElements mapping.layoutStructure cfg
    ++ "</svg>"

/-- The value `TemplateGenerator.create_template` returns (file paths and
the timestamped id are I/O, modelled out). -/
structure TemplateResult where
  svgContent : String
  analysis : ContentMapping
  placeholders : List MappedPlaceholder
  status : String
  deriving Repr

/-- `TemplateGenerator.create_template`: resolve the style once, build the
content mapping, then the SVG and the placeholder listing. -/
def createTemplate (textElements : List RawTextElement)
    (imageRegions : List RawImageRegion) (colors : List String)
    (fonts : List String) (layoutStructure : LayoutStructure)
    (style : String) (width height : ℕ) : TemplateResult :=
  let styleConfig := resolveStyle style
  let mapping := createContentMapping textElements imageRegions colors fonts layoutStructure
  { svgContent := createSvgTemplate mapping styleConfig width height
    analysis := mapping
    placeholders := extractPlaceholdersFromMapping mapping.textElements mapping.imageRegions
    status := "success" }

/-! ### PreviewGenerator (`src/preview_generator.py`) -/

/-- The fixed sample-content lookup table `PreviewGenerator.sample_content`. -/
def sampleContent : List (String × String) :=
  [("\x7bTITLE\x7d", "Sample Title"),
   ("\x7bSUBTITLE\x7d", "Sample Subtitle"),
   ("\x7bDESCRIPTION\x7d", "Sample Description Text"),
   ("\x7bAUTHOR\x7d", "Sample Author"),
   ("\x7bDATE\x7d", "Sample Date"),
   ("\x7bCATEGORY\x7d", "Sample Category"),
   ("\x7bTAG\x7d", "Sample Tag"),
   ("\x7bQUOTE\x7d", "Sample Quote"),
   ("\x7bCTA_TEXT\x7d", "Click Here"),
   ("\x7bPRICE\x7d", "$99"),
   ("\x7bDOMAIN\x7d", "sample.com"),
   ("\x7bSITE_NAME\x7d", "Sample Website"),
   ("\x7bBRAND_NAME\x7d", "Sample Brand"),
   ("\x7bURL\x7d", "www.sample.com"),
   ("\x7bUSERNAME\x7d", "@sampleuser"),
   ("\x7bUSER_HANDLE\x7d", "@sample"),
   ("\x7bFOLLOWERS\x7d", "1.2K"),
   ("\x7bLIKES\x7d", "456"),
   ("\x7bSHARES\x7d", "123"),
   ("\x7bVIEWS\x7d", "2.3K"),
   ("\x7bRATING\x7d", "4.5"),
   ("\x7bPERCENTAGE\x7d", "85%"),
   ("\x7bNUMBER\x7d", "42")]

/-- The substitution `PreviewGenerator._render_text_elements` applies to
one `<text>` element's content:
`self.sample_content.get(placeholder_text, placeholder_text)` — a tag
missing from the table renders verbatim, and the renderer receives no
caller bindings. -/
def renderTextContent (placeholderText : String) : String :=
  (sampleContent.lookup placeholderText).getD placeholderText

/-- The text contents of the `<text>` elements `_create_svg_template`
emits, in document order: one per image region (from
`_add_image_placeholders`) carrying the region's tag, then one per text
element (from `_add_text_elements`) carrying the element's tag. -/
def svgTextContents (mapping : ContentMapping) : List String :=
  mapping.imageRegions.map (fun r => r.placeholderTag)
    ++ mapping.textElements.map (fun e => e.placeholderTag)

/-- The strings `_render_text_elements` draws into the raster for a
template's `<text>` elements. -/
def renderedTextElements (mapping : ContentMapping) : List String :=
  (svgTextContents mapping).map renderTextContent

/-! ## Theorems -/

/-- C2: with no stock-photo provider configured (all three API keys are the
empty string), `get_random_image` returns the non-none synthetic
Lorem-Picsum placeholder URL whatever the provider oracles would have done,
and never raises (the embedding is total and the error constructor is
consumed); moreover an exception (`Except.error`) in any single provider is
caught and yields exactly the state the chain would be in had that provider
merely returned no result, so the fallback chain continues. -/
theorem C2_get_random_image_unconfigured_falls_back :
    ∀ (oU oP oX : ProviderOutcome) (w h seed : ℕ),
      (getRandomImage ("") ("") ("") oU oP oX w h seed = some (fallbackUrl w h seed))
    ∧ (∀ kU kP kX : String, ∀ e : String,
        getRandomImage kU kP kX (.error e) oP oX w h seed
            = getRandomImage kU kP kX (.ok none) oP oX w h seed
        ∧ getRandomImage kU kP kX oU (.error e) oX w h seed
            = getRandomImage kU kP kX oU (.ok none) oX w h seed
        ∧ getRandomImage kU kP kX oU oP (.error e) w h seed
            = getRandomImage kU kP kX oU oP (.ok none) w h seed) := by
  intro oU oP oX w h seed
  refine ⟨rfl, fun kU kP kX e => ⟨?_, ?_, ?_⟩⟩ <;>
    simp only [getRandomImage, tryProvider]

/-- C4 counterexample: the all-black 1000×1500 image (average brightness 0,
a single unique color) is a decodable 2:3 portrait of audience-optimal
size, yet its recommendations list is non-empty (it draws the brightness
and color-variety recommendations) and its platform score is 85, refuting
"for every decodable 1000×1500 image the platformScore is at or near 100
with an empty recommendations list". -/
theorem C4_counterexample_dark_portrait :
    (getPinterestRecommendations 1000 1500 0 1).recommendations ≠ []
  ∧ (getPinterestRecommendations 1000 1500 0 1).pinterestScore = 85 := by
  constructor
  · norm_num [getPinterestRecommendations]
    exact List.cons_ne_nil _ _
  · norm_num [getPinterestRecommendations]

/-- C4 (amended): the platform score starts at 100, deducts a fixed
penalty per violated heuristic and is clamped to [0,100]; a 1000×1500
(2:3) image incurs no aspect-ratio or size penalty, and when additionally
its average brightness lies in [50,200] and it has at least 100 unique
colors it scores exactly 100 with an empty recommendations list; every
300×200 (3:2 landscape) image scores at most 65 (strictly below 80) with
at least three recommendations (aspect ratio, minimum width, minimum
height). -/
theorem C4_platform_score_heuristics (w h : ℕ) (b : ℚ) (c : ℕ) :
    (0 ≤ (getPinterestRecommendations w h b c).pinterestScore
      ∧ (getPinterestRecommendations w h b c).pinterestScore ≤ 100)
  ∧ (50 ≤ b → b ≤ 200 → 100 ≤ c →
      getPinterestRecommendations 1000 1500 b c
        = { pinterestScore := 100, recommendations := [], optimalForPinterest := true })
  ∧ ((getPinterestRecommendations 300 200 b c).pinterestScore ≤ 65
      ∧ 3 ≤ (getPinterestRecommendations 300 200 b c).recommendations.length) := by
  refine ⟨⟨?_, ?_⟩, ?_, ?_, ?_⟩
  · simp only [getPinterestRecommendations]
    split_ifs <;> omega
  · simp only [getPinterestRecommendations]
    split_ifs <;> omega
  · intro hb1 hb2 hc
    have hb4 : ¬(b < 50) := not_lt.mpr hb1
    have hb5 : ¬((200 : ℚ) < b) := not_lt.mpr hb2
    have hc6 : ¬(c < 100) := not_lt.mpr hc
    simp only [getPinterestRecommendations]
    norm_num [hb4, hb5, hc6, PinterestOpt.mk.injEq]
  · simp only [getPinterestRecommendations]
    norm_num
    split_ifs <;> norm_num
  · simp only [getPinterestRecommendations]
    norm_num
    split_ifs <;> norm_num

/-- C4 witness: a 1000×1500 image with average brightness 100 and 150
unique colors scores exactly 100 with no recommendations. -/
theorem C4_platform_score_heuristics_witness :
    getPinterestRecommendations 1000 1500 100 150
      = { pinterestScore := 100, recommendations := [], optimalForPinterest := true } :=
  (C4_platform_score_heuristics 1000 1500 100 150).2.1
    (by decide) (by decide) (by decide)

/-- C9: calling `create_template` with a style name outside the fixed
registry resolves to the documented `"modern"` default once, and the
produced template is identical — in its SVG content, mapping, and
placeholders — to the one produced for `"modern"`: the default is applied
consistently to the entire template, never mixed mid-template. -/
theorem C9_unknown_style_defaults_to_modern (style : String)
    (h1 : style ≠ "modern") (h2 : style ≠ "minimal") (h3 : style ≠ "vibrant") :
    resolveStyle style = modernStyle
  ∧ ∀ (textElements : List RawTextElement) (imageRegions : List RawImageRegion)
      (colors fonts : List String) (layoutStructure : LayoutStructure)
      (width height : ℕ),
      createTemplate textElements imageRegions colors fonts layoutStructure style width height
        = createTemplate textElements imageRegions colors fonts layoutStructure ("modern")
            width height := by
  have e1 : (style == "modern") = false := beq_eq_false_iff_ne.mpr h1
  have e2 : (style == "minimal") = false := beq_eq_false_iff_ne.mpr h2
  have e3 : (style == "vibrant") = false := beq_eq_false_iff_ne.mpr h3
  have hres : resolveStyle style = modernStyle := by
    simp [resolveStyle, templateStyles, List.lookup, e1, e2, e3]
  refine ⟨hres, fun textElements imageRegions colors fonts layoutStructure width height => ?_⟩
  simp only [createTemplate, hres]
  rfl

/-- C9 witness: the unknown style name `"funky"` resolves to the modern
default and yields the modern template verbatim. -/
theorem C9_unknown_style_defaults_to_modern_witness :
    resolveStyle ("funky") = modernStyle
  ∧ ∀ (textElements : List RawTextElement) (imageRegions : List RawImageRegion)
      (colors fonts : List String) (layoutStructure : LayoutStructure)
      (width height : ℕ),
      createTemplate textElements imageRegions colors fonts layoutStructure ("funky") width height
        = createTemplate textElements imageRegions colors fonts layoutStructure ("modern")
            width height :=
  C9_unknown_style_defaults_to_modern ("funky") (by decide) (by decide) (by decide)

/-- C1 counterexample: for a perfectly decodable image whose color
sub-analysis raises (all other sub-analyzers fine), `analyze_image` does
not return a result with an error marker in the color field — it
propagates the exception (`except ... raise` in the source), refuting
"the failure of any single sub-analyzer is caught ... without aborting
the others; only an undecodable image fails". -/
theorem C1_counterexample_color_failure_propagates :
    analyzeImage (α := ℕ) (β := ℕ) (γ := ℕ) (δ := ℕ) (ε := ℕ)
      (some () : Option Unit) (fun _ => 0) (fun _ => .error ("cv2 failure")) (fun _ => .ok [])
      (fun _ => (100, 100)) (fun _ => .ok 0) (fun _ => .ok 0) (fun _ => .ok 0)
      (fun _ => .ok { pinterestScore := 100, recommendations := [],
                      optimalForPinterest := true })
      = .error ("cv2 failure") := rfl

/-- C1 (amended): only the text sub-analysis failure is caught — replaced
by the empty default text result — while a failure in the color, layout,
background, visual-elements or Pinterest-recommendation sub-analyzer
propagates out of `analyze_image`; when the image decodes and all
non-text sub-analyzers succeed the full result is returned whatever the
OCR oracle did, and an undecodable image fails with the load error
(`ValueError` in the source, the spec's `InvalidImageError`). -/
theorem C1_analyze_image_only_text_failure_caught {Img α β γ δ ε : Type}
    (img : Img) (imageInfoF : Img → α) (colorsF : Img → Except String β)
    (ocrF : Img → Except String (List OCRWord)) (dims : Img → ℕ × ℕ)
    (layoutF : Img → Except String γ) (backgroundF : Img → Except String δ)
    (visualF : Img → Except String ε) (pinterestF : Img → Except String PinterestOpt)
    (colorRes : β) (layoutRes : γ) (bgRes : δ) (visRes : ε) (pinRes : PinterestOpt)
    (hc : colorsF img = .ok colorRes) (hl : layoutF img = .ok layoutRes)
    (hb : backgroundF img = .ok bgRes) (hv : visualF img = .ok visRes)
    (hp : pinterestF img = .ok pinRes) :
    (analyzeImage (some img) imageInfoF colorsF ocrF dims layoutF backgroundF visualF
        pinterestF
      = .ok { imageInfo := imageInfoF img
              colorAnalysis := colorRes
              textAnalysis := analyzeText (ocrF img) (dims img).1 (dims img).2
              layoutAnalysis := layoutRes
              backgroundAnalysis := bgRes
              visualElements := visRes
              pinterestOptimization := pinRes })
  ∧ (∀ e, ocrF img = .error e →
      analyzeText (ocrF img) (dims img).1 (dims img).2 = defaultTextAnalysis)
  ∧ (analyzeImage (none : Option Img) imageInfoF colorsF ocrF dims layoutF backgroundF
      visualF pinterestF = .error ("Could not load image")) := by
  refine ⟨?_, ?_, rfl⟩
  · simp [analyzeImage, hc, hl, hb, hv, hp]
  · intro e he
    simp [analyzeText, he]

/-- C1 witness: a decodable image whose OCR raises but whose other
sub-analyzers succeed produces the full result with the default empty
text analysis substituted, and the undecodable input errors. -/
theorem C1_analyze_image_only_text_failure_caught_witness :
    (analyzeImage (α := ℕ) (β := ℕ) (γ := ℕ) (δ := ℕ) (ε := ℕ)
        (some () : Option Unit) (fun _ => 7) (fun _ => .ok 1) (fun _ => .error ("tesseract failure"))
        (fun _ => (100, 100)) (fun _ => .ok 2) (fun _ => .ok 3) (fun _ => .ok 4)
        (fun _ => .ok { pinterestScore := 100, recommendations := [],
                        optimalForPinterest := true })
      = .ok { imageInfo := 7
              colorAnalysis := 1
              textAnalysis := analyzeText (.error ("tesseract failure")) 100 100
              layoutAnalysis := 2
              backgroundAnalysis := 3
              visualElements := 4
              pinterestOptimization := { pinterestScore := 100, recommendations := [],
                                         optimalForPinterest := true } })
  ∧ (∀ e, (Except.error ("tesseract failure") : Except String (List OCRWord)) = .error e →
      analyzeText (.error ("tesseract failure")) 100 100 = defaultTextAnalysis)
  ∧ (analyzeImage (α := ℕ) (β := ℕ) (γ := ℕ) (δ := ℕ) (ε := ℕ)
        (none : Option Unit) (fun _ => 7) (fun _ => .ok 1) (fun _ => .error ("tesseract failure"))
        (fun _ => (100, 100)) (fun _ => .ok 2) (fun _ => .ok 3) (fun _ => .ok 4)
        (fun _ => .ok { pinterestScore := 100, recommendations := [],
                        optimalForPinterest := true })
      = .error ("Could not load image")) :=
  C1_analyze_image_only_text_failure_caught () (fun _ => 7) (fun _ => .ok 1)
    (fun _ => .error ("tesseract failure")) (fun _ => (100, 100)) (fun _ => .ok 2)
    (fun _ => .ok 3) (fun _ => .ok 4)
    (fun _ => .ok { pinterestScore := 100, recommendations := [],
                    optimalForPinterest := true })
    1 2 3 4 { pinterestScore := 100, recommendations := [], optimalForPinterest := true }
    rfl rfl rfl rfl rfl

/-! Helper lemmas about the string primitives and placeholder tags. -/

lemma string_data_inj {s t : String} (h : s.data = t.data) : s = t := by
  cases s; cases t; exact congrArg String.mk h

lemma string_ne_of_getD (s t : String) (n : ℕ)
    (h : s.data.getD n ' ' ≠ t.data.getD n ' ') : s ≠ t :=
  fun he => h (by rw [he])

lemma digitChar_injOn : ∀ a, a < 10 → ∀ b, b < 10 →
    Nat.digitChar a = Nat.digitChar b → a = b := by decide

lemma map_digitChar_inj : ∀ (l₁ : List ℕ), (∀ x ∈ l₁, x < 10) →
    ∀ (l₂ : List ℕ), (∀ x ∈ l₂, x < 10) →
    l₁.map Nat.digitChar = l₂.map Nat.digitChar → l₁ = l₂ := by
  intro l₁
  induction l₁ with
  | nil =>
    intro _ l₂ _ h
    cases l₂ with
    | nil => rfl
    | cons b t => simp at h
  | cons a t ih =>
    intro h₁ l₂ h₂ h
    cases l₂ with
    | nil => simp at h
    | cons b t₂ =>
      simp only [List.map_cons, List.cons.injEq] at h
      have ha : a = b := digitChar_injOn a (h₁ a (by simp)) b (h₂ b (by simp)) h.1
      have ht : t = t₂ :=
        ih (fun x hx => h₁ x (by simp [hx])) t₂ (fun x hx => h₂ x (by simp [hx])) h.2
      rw [ha, ht]

lemma natStr_pos_inj {m n : ℕ} (hm : 0 < m) (hn : 0 < n)
    (h : natStr m = natStr n) : m = n := by
  rw [natStr, natStr, if_neg hm.ne', if_neg hn.ne'] at h
  have hd : ((Nat.digits 10 m).reverse.map Nat.digitChar)
      = ((Nat.digits 10 n).reverse.map Nat.digitChar) := congrArg String.data h
  have h2 := map_digitChar_inj _
    (fun x hx => Nat.digits_lt_base (by norm_num) (List.mem_reverse.mp hx)) _
    (fun x hx => Nat.digits_lt_base (by norm_num) (List.mem_reverse.mp hx)) hd
  have h3 : Nat.digits 10 m = Nat.digits 10 n := List.reverse_injective h2
  have h4 := congrArg (Nat.ofDigits 10) h3
  rwa [Nat.ofDigits_digits, Nat.ofDigits_digits] at h4

lemma append3_data (pre mid post : String) :
    (pre ++ mid ++ post).data = pre.data ++ (mid.data ++ post.data) := by
  rw [String.data_append, String.data_append, List.append_assoc]

lemma tag_getD (pre mid post : String) (k : ℕ) (hk : k < pre.data.length) :
    (pre ++ mid ++ post).data.getD k ' ' = pre.data.getD k ' ' := by
  rw [append3_data]
  exact List.getD_append _ _ _ _ hk

lemma textTag_getD (m k : ℕ) (hk : k < 6) :
    (textTag m).data.getD k ' ' = "\x7bTEXT_".data.getD k ' ' := by
  rw [textTag]
  exact tag_getD _ _ _ k (by simpa using hk)

lemma imageTag_getD (m k : ℕ) (hk : k < 7) :
    (imageTag m).data.getD k ' ' = "\x7bIMAGE_".data.getD k ' ' := by
  rw [imageTag]
  exact tag_getD _ _ _ k (by simpa using hk)

lemma textTag_tail {m n : ℕ} (h : textTag m = textTag n) : natStr m = natStr n := by
  simp only [textTag] at h
  have hd := congrArg String.data h
  rw [append3_data, append3_data] at hd
  exact string_data_inj (List.append_cancel_right (List.append_cancel_left hd))

lemma imageTag_tail {m n : ℕ} (h : imageTag m = imageTag n) : natStr m = natStr n := by
  simp only [imageTag] at h
  have hd := congrArg String.data h
  rw [append3_data, append3_data] at hd
  exact string_data_inj (List.append_cancel_right (List.append_cancel_left hd))

lemma textTag_succ_injective : Function.Injective (fun i : ℕ => textTag (i + 1)) := by
  intro a b h
  have := natStr_pos_inj (Nat.succ_pos a) (Nat.succ_pos b) (textTag_tail h)
  omega

lemma imageTag_succ_injective : Function.Injective (fun i : ℕ => imageTag (i + 1)) := by
  intro a b h
  have := natStr_pos_inj (Nat.succ_pos a) (Nat.succ_pos b) (imageTag_tail h)
  omega

lemma textTag_ne_imageTag (m n : ℕ) : textTag m ≠ imageTag n := by
  apply string_ne_of_getD _ _ 1
  rw [textTag_getD m 1 (by norm_num), imageTag_getD n 1 (by norm_num)]
  decide

lemma natStr_one : natStr 1 = "1" := by
  rw [natStr, if_neg one_ne_zero,
    Nat.digits_def' (b := 10) (by norm_num) (n := 1) (by norm_num)]
  norm_num
  decide

lemma sampleContent_lookup_textTag (m : ℕ) :
    sampleContent.lookup (textTag m) = none := by
  rw [List.lookup_eq_none_iff]
  intro p hp
  simp only [bne_iff_ne, ne_eq]
  fin_cases hp <;>
    first
      | (apply string_ne_of_getD _ _ 1
         rw [textTag_getD m 1 (by norm_num)]
         decide)
      | (apply string_ne_of_getD _ _ 2
         rw [textTag_getD m 2 (by norm_num)]
         decide)

lemma sampleContent_lookup_imageTag (m : ℕ) :
    sampleContent.lookup (imageTag m) = none := by
  rw [List.lookup_eq_none_iff]
  intro p hp
  simp only [bne_iff_ne, ne_eq]
  fin_cases hp <;>
    (apply string_ne_of_getD _ _ 1
     rw [imageTag_getD m 1 (by norm_num)]
     decide)

/-- C3 counterexample: a template synthesized from an analysis with one
text element carries the tag `{TEXT_1}` in its only `<text>` element, and
the preview renderer — which has no caller bindings and whose fixed
sample table has no entry for `{TEXT_1}` — draws that tag verbatim into
the raster: a tag of the generated template is left literally unresolved,
refuting the round-trip claim. -/
theorem C3_counterexample_generated_tag_left_unresolved :
    renderedTextElements (createContentMapping [⟨none, none, none, none⟩] [] [] [] ⟨false⟩)
      = [textTag 1]
  ∧ sampleContent.lookup (textTag 1) = none := by
  constructor
  · simp [renderedTextElements, svgTextContents, createContentMapping, processTextElements,
      processImageRegions, List.enum, renderTextContent, sampleContent_lookup_textTag]
  · exact sampleContent_lookup_textTag 1

/-- C3 (amended): the renderer substitutes exactly the tags of the fixed
sample-content table with their sample values; every other tag renders
verbatim — in particular every generated `{TEXT_i}` / `{IMAGE_i}` tag is
missing from the table and is left literally in the raster output
(`_render_text_elements` receives no caller bindings). -/
theorem C3_render_substitutes_only_table_tags :
    (∀ p ∈ sampleContent, renderTextContent p.1 = p.2)
  ∧ (∀ n : ℕ, renderTextContent (textTag n) = textTag n
      ∧ renderTextContent (imageTag n) = imageTag n) := by
  constructor
  · decide
  · intro n
    constructor <;>
      simp [renderTextContent, sampleContent_lookup_textTag, sampleContent_lookup_imageTag]

/-- C3 witness: `{TITLE}` renders as its sample value while the generated
`{TEXT_1}` renders verbatim. -/
theorem C3_render_substitutes_only_table_tags_witness :
    renderTextContent ("\x7bTITLE\x7d") = "Sample Title"
  ∧ renderTextContent (textTag 1) = textTag 1 :=
  ⟨C3_render_substitutes_only_table_tags.1 ("\x7bTITLE\x7d", "Sample Title") (by decide),
   (C3_render_substitutes_only_table_tags.2 1).1⟩

lemma stringLe_trans : ∀ (a b c : String), decide (a ≤ b) = true →
    decide (b ≤ c) = true → decide (a ≤ c) = true := by
  intro a b c h1 h2
  simp only [decide_eq_true_eq] at *
  exact le_trans h1 h2

lemma stringLe_total : ∀ (a b : String), (decide (a ≤ b) || decide (b ≤ a)) = true := by
  intro a b
  rcases le_total a b with h | h <;> simp [h]

/-- C10: for every analysis input — including one with no detected text or
image regions — the placeholder list of `_generate_placeholders` contains
all 15 fixed common placeholder tags as well as every per-region
`{TEXT_i}` / `{IMAGE_i}` tag, and the returned list is sorted (under the
lexicographic string order Python's `sorted` uses) and duplicate-free. -/
theorem C10_generate_placeholders_complete_sorted_nodup
    (textElements : List RawTextElement) (imageRegions : List RawImageRegion) :
    (∀ t ∈ commonPlaceholders, t ∈ generatePlaceholders textElements imageRegions)
  ∧ (∀ i < textElements.length,
      textTag (i + 1) ∈ generatePlaceholders textElements imageRegions)
  ∧ (∀ i < imageRegions.length,
      imageTag (i + 1) ∈ generatePlaceholders textElements imageRegions)
  ∧ (generatePlaceholders textElements imageRegions).Nodup
  ∧ List.Sorted (· ≤ ·) (generatePlaceholders textElements imageRegions) := by
  have hmem : ∀ a, a ∈ generatePlaceholders textElements imageRegions ↔
      a ∈ ((List.range textElements.length).map (fun i => textTag (i + 1)))
          ++ ((List.range imageRegions.length).map (fun i => imageTag (i + 1)))
          ++ commonPlaceholders := by
    intro a
    simp only [generatePlaceholders]
    rw [(List.mergeSort_perm _ _).mem_iff, List.mem_dedup]
  refine ⟨?_, ?_, ?_, ?_, ?_⟩
  · intro t ht
    rw [hmem]
    simp [ht]
  · intro i hi
    rw [hmem]
    simp only [List.append_assoc, List.mem_append, List.mem_map, List.mem_range]
    exact Or.inl ⟨i, hi, rfl⟩
  · intro i hi
    rw [hmem]
    simp only [List.append_assoc, List.mem_append, List.mem_map, List.mem_range]
    exact Or.inr (Or.inl ⟨i, hi, rfl⟩)
  · simp only [generatePlaceholders]
    exact ((List.mergeSort_perm _ _).nodup_iff).mpr (List.nodup_dedup _)
  · simp only [generatePlaceholders]
    exact List.Pairwise.imp (fun h => of_decide_eq_true h)
      (List.sorted_mergeSort stringLe_trans stringLe_total _)

/-- C10 witness: for an analysis with one text element and no image
regions the generated list contains `{TITLE}` and `{TEXT_1}`. -/
theorem C10_generate_placeholders_witness :
    "\x7bTITLE\x7d" ∈ generatePlaceholders [⟨none, none, none, none⟩] []
  ∧ textTag 1 ∈ generatePlaceholders [⟨none, none, none, none⟩] [] :=
  ⟨(C10_generate_placeholders_complete_sorted_nodup _ _).1 _ (by decide),
   (C10_generate_placeholders_complete_sorted_nodup _ _).2.1 0 (by decide)⟩

/-- C8: every placeholder tag produced by
`_extract_placeholders_from_mapping` is unique within one analysis result
— no two placeholders share a tag, for any numbers of text elements and
image regions.  (Re-running the mapper on identical input trivially yields
identical tags: the embedding is a pure function of its input, as is the
source, whose tags depend only on the element indices.) -/
theorem C8_extracted_placeholder_tags_unique
    (textElements : List ProcessedTextElement)
    (imageRegions : List ProcessedImageRegion) :
    ((extractPlaceholdersFromMapping textElements imageRegions).map
      MappedPlaceholder.tag).Nodup := by
  have htext : ((textElements.enum.map (fun p =>
        MappedPlaceholder.text ("TEXT_" ++ natStr (p.1 + 1)) (textTag (p.1 + 1))
          p.2.content p.2.bbox)).map MappedPlaceholder.tag)
      = (textElements.enum.map Prod.fst).map (fun i => textTag (i + 1)) := by
    rw [List.map_map, List.map_map]
    rfl
  have himage : ((imageRegions.enum.map (fun p =>
        MappedPlaceholder.image ("IMAGE_" ++ natStr (p.1 + 1)) (imageTag (p.1 + 1))
          p.2.bbox)).map MappedPlaceholder.tag)
      = (imageRegions.enum.map Prod.fst).map (fun i => imageTag (i + 1)) := by
    rw [List.map_map, List.map_map]
    rfl
  rw [extractPlaceholdersFromMapping, List.map_append, htext, himage,
    List.enum_map_fst, List.enum_map_fst, List.nodup_append]
  refine ⟨List.Nodup.map textTag_succ_injective (List.nodup_range _),
    List.Nodup.map imageTag_succ_injective (List.nodup_range _), ?_⟩
  intro a ha hb
  obtain ⟨i, _, rfl⟩ := List.mem_map.mp ha
  obtain ⟨j, _, hj⟩ := List.mem_map.mp hb
  exact textTag_ne_imageTag (i + 1) (j + 1) hj.symm

/-- C6 counterexample: an OCR word of confidence 40 (0.4 on a [0,1]
scale) is retained with its stored confidence equal to the integer 40 —
outside [0,1] — and font inference consumes it (the categories list of
`_analyze_fonts` has one entry): no 0.5-tier filter exists in the code,
refuting both the "[0,1] confidence" and the "stricter 0.5 threshold for
font/style inference" parts of the claim. -/
theorem C6_counterexample_no_second_tier :
    ((textRegionsOf [⟨"hello", 40, 0, 0, 50, 20⟩]).map (fun r => r.confidence)) = [40]
  ∧ ¬((40 : ℤ) ≤ 1)
  ∧ ((analyzeFonts (textRegionsOf [⟨"hello", 40, 0, 0, 50, 20⟩])).categoriesList).length
      = 1 := by
  decide

/-- C6 (amended): text regions are retained by the single threshold
`conf > 30` on tesseract's integer 0..100 confidence scale (so every
retained confidence is an integer in (30,100], not a value in [0,1]),
and font/style inference applies no further threshold: `_analyze_fonts`
classifies every retained region — its per-region category list is as
long as the retained-region list. -/
theorem C6_text_regions_single_threshold (data : List OCRWord)
    (hconf : ∀ w ∈ data, w.conf ≤ 100) :
    (∀ r ∈ textRegionsOf data, 30 < r.confidence ∧ r.confidence ≤ 100)
  ∧ ((analyzeFonts (textRegionsOf data)).categoriesList).length
      = (textRegionsOf data).length := by
  constructor
  · intro r hr
    simp only [textRegionsOf, List.mem_filterMap] at hr
    obtain ⟨w, hw, hsome⟩ := hr
    by_cases hc : 30 < w.conf ∧ pyStrip w.text ≠ ""
    · rw [if_pos hc] at hsome
      cases hsome
      exact ⟨hc.1, hconf w hw⟩
    · rw [if_neg hc] at hsome
      cases hsome
  · by_cases h : textRegionsOf data = []
    · rw [analyzeFonts, if_pos h, h]
      rfl
    · rw [analyzeFonts, if_neg h]
      simp [FontAnalysis.categoriesList]

/-- C6 witness: the single-word OCR output of confidence 40 satisfies the
amended contract. -/
theorem C6_text_regions_single_threshold_witness :
    (∀ r ∈ textRegionsOf [⟨"hello", 40, 0, 0, 50, 20⟩],
      30 < r.confidence ∧ r.confidence ≤ 100)
  ∧ ((analyzeFonts (textRegionsOf [⟨"hello", 40, 0, 0, 50, 20⟩])).categoriesList).length
      = (textRegionsOf [⟨"hello", 40, 0, 0, 50, 20⟩]).length :=
  C6_text_regions_single_threshold [⟨"hello", 40, 0, 0, 50, 20⟩] (by decide)

/-- C7 counterexample: on an image whose pixels are all near-black (means
0 and 5), the outlier filter removes everything, and the fallback
(`if len(filtered_pixels) == 0: filtered_pixels = pixels`) hands the
unfiltered pixel list — outlier pixels included — to clustering, refuting
"excluding before clustering every pixel whose mean channel value lies
outside [20,235]". -/
theorem C7_counterexample_fallback_clusters_outliers :
    clusteringInput [(0, 0, 0), (5, 5, 5)] = [(0, 0, 0), (5, 5, 5)]
  ∧ pixelMean (0, 0, 0) < 20 := by
  have hf : filteredPixels [((0 : ℕ), (0 : ℕ), (0 : ℕ)), (5, 5, 5)] = [] := by
    norm_num [filteredPixels, pixelMean, List.filter_cons, Bool.and_eq_true,
      decide_eq_true_eq]
  constructor
  · rw [clusteringInput, if_pos hf]
  · norm_num [pixelMean]

lemma rankedLabels_sorted (labels : List ℕ) :
    List.Pairwise (fun a b => labels.count b ≤ labels.count a) (rankedLabels labels) := by
  simp only [rankedLabels]
  refine List.Pairwise.imp (fun h => of_decide_eq_true h)
    (List.sorted_mergeSort ?_ ?_ (labels.eraseDups))
  · intro a b c h1 h2
    simp only [decide_eq_true_eq] at *
    exact le_trans h2 h1
  · intro a b
    rcases le_total (labels.count b) (labels.count a) with h | h <;> simp [h]

lemma swatches_percentage_sorted (labels : List ℕ) (centers : ℕ → Pixel) :
    List.Pairwise (fun s t : ColorSwatch => t.percentage ≤ s.percentage)
      ((rankedLabels labels).map (fun i =>
        { rgb := centers i
          percentage := (labels.count i : ℚ) / labels.length * 100 })) := by
  apply List.Pairwise.map
  · intro a b h
    have h1 : (labels.count b : ℚ) ≤ (labels.count a : ℚ) := Nat.cast_le.mpr h
    have h2 : (labels.count b : ℚ) / labels.length ≤ (labels.count a : ℚ) / labels.length := by
      rw [div_eq_mul_inv, div_eq_mul_inv]
      exact mul_le_mul_of_nonneg_right h1 (inv_nonneg.mpr (Nat.cast_nonneg _))
    exact mul_le_mul_of_nonneg_right h2 (by norm_num)
  · exact rankedLabels_sorted labels

/-- C7 (amended): whenever at least one pixel survives the outlier mask
(the non-degenerate case), exactly the masked pixels — each with mean
channel value strictly inside (20,235) — are handed to clustering; the
cluster count never exceeds 8; and the dominant colors are ranked by
non-increasing cluster population.  Determinism for the fixed seed holds
because the embedding (like the seeded `KMeans(random_state=42)` call) is
a pure function of the pixel data.  When every pixel is an outlier the
code instead clusters the full unfiltered list (see the counterexample). -/
theorem C7_color_clustering_contract (pixels : List Pixel) (kmeans : KMeansOracle)
    (hne : filteredPixels pixels ≠ []) :
    clusteringInput pixels = filteredPixels pixels
  ∧ (∀ p ∈ clusteringInput pixels, 20 < pixelMean p ∧ pixelMean p < 235)
  ∧ nColors pixels ≤ 8
  ∧ List.Pairwise (fun s t : ColorSwatch => t.percentage ≤ s.percentage)
      (analyzeColors pixels kmeans).dominantColors := by
  have hci : clusteringInput pixels = filteredPixels pixels := by
    rw [clusteringInput, if_neg hne]
  refine ⟨hci, ?_, min_le_left _ _, ?_⟩
  · intro p hp
    rw [hci] at hp
    simp only [filteredPixels, List.mem_filter, Bool.and_eq_true, decide_eq_true_eq] at hp
    exact hp.2
  · simp only [analyzeColors]
    split
    · exact swatches_percentage_sorted _ _
    · simp

/-- C7 witness: a single mid-range pixel survives the mask and the
clustering contract holds for it. -/
theorem C7_color_clustering_contract_witness :
    clusteringInput [((100 : ℕ), (100 : ℕ), (100 : ℕ))]
        = filteredPixels [((100 : ℕ), (100 : ℕ), (100 : ℕ))]
  ∧ (∀ p ∈ clusteringInput [((100 : ℕ), (100 : ℕ), (100 : ℕ))],
      20 < pixelMean p ∧ pixelMean p < 235)
  ∧ nColors [((100 : ℕ), (100 : ℕ), (100 : ℕ))] ≤ 8
  ∧ List.Pairwise (fun s t : ColorSwatch => t.percentage ≤ s.percentage)
      (analyzeColors [((100 : ℕ), (100 : ℕ), (100 : ℕ))]
        (fun _ _ => ([], fun _ => (0, 0, 0)))).dominantColors :=
  C7_color_clustering_contract [((100 : ℕ), (100 : ℕ), (100 : ℕ))]
    (fun _ _ => ([], fun _ => (0, 0, 0)))
    (by norm_num [filteredPixels, pixelMean, List.filter_cons, Bool.and_eq_true,
      decide_eq_true_eq])

lemma listSum_le_mul {l : List ℕ} {B : ℕ} (h : ∀ x ∈ l, x ≤ B) :
    l.sum ≤ l.length * B := by
  simpa [smul_eq_mul] using List.sum_le_card_nsmul l B h

lemma sliceRange_length (a b limit : ℕ) :
    (sliceRange a b limit).length = min b limit - a := by
  simp [sliceRange]

lemma bandSumCols_le (edges : ℕ → ℕ → ℕ) (height a b width : ℕ)
    (hb : ∀ r c, edges r c ≤ 255) (hlen : min b width - a ≤ 5) :
    bandSumCols edges height a b width ≤ height * (5 * 255) := by
  rw [bandSumCols]
  have hinner : ∀ r, ((sliceRange a b width).map (fun c => edges r c)).sum ≤ 5 * 255 := by
    intro r
    calc ((sliceRange a b width).map (fun c => edges r c)).sum
        ≤ ((sliceRange a b width).map (fun c => edges r c)).length * 255 :=
          listSum_le_mul (by
            intro x hx
            obtain ⟨c, _, rfl⟩ := List.mem_map.mp hx
            exact hb r c)
      _ ≤ 5 * 255 := by
          rw [List.length_map, sliceRange_length]
          exact Nat.mul_le_mul_right 255 hlen
  calc ((List.range height).map
          (fun r => ((sliceRange a b width).map (fun c => edges r c)).sum)).sum
      ≤ ((List.range height).map
          (fun r => ((sliceRange a b width).map (fun c => edges r c)).sum)).length
          * (5 * 255) :=
        listSum_le_mul (by
          intro x hx
          obtain ⟨r, _, rfl⟩ := List.mem_map.mp hx
          exact hinner r)
    _ = height * (5 * 255) := by rw [List.length_map, List.length_range]

lemma bandSumRows_le (edges : ℕ → ℕ → ℕ) (width a b height : ℕ)
    (hb : ∀ r c, edges r c ≤ 255) (hlen : min b height - a ≤ 5) :
    bandSumRows edges width a b height ≤ width * (5 * 255) := by
  rw [bandSumRows]
  have hinner : ∀ r, ((List.range width).map (fun c => edges r c)).sum ≤ width * 255 := by
    intro r
    calc ((List.range width).map (fun c => edges r c)).sum
        ≤ ((List.range width).map (fun c => edges r c)).length * 255 :=
          listSum_le_mul (by
            intro x hx
            obtain ⟨c, _, rfl⟩ := List.mem_map.mp hx
            exact hb r c)
      _ = width * 255 := by rw [List.length_map, List.length_range]
  calc ((sliceRange a b height).map
          (fun r => ((List.range width).map (fun c => edges r c)).sum)).sum
      ≤ ((sliceRange a b height).map
          (fun r => ((List.range width).map (fun c => edges r c)).sum)).length
          * (width * 255) :=
        listSum_le_mul (by
          intro x hx
          obtain ⟨r, _, rfl⟩ := List.mem_map.mp hx
          exact hinner r)
    _ ≤ 5 * (width * 255) := by
        rw [List.length_map, sliceRange_length]
        exact Nat.mul_le_mul_right _ hlen
    _ = width * (5 * 255) := by ring

lemma density_bounds {S n : ℕ} (hn : 0 < n) (hS : S ≤ n * (5 * 255)) :
    0 ≤ (S : ℚ) / ((n : ℚ) * 5) ∧ (S : ℚ) / ((n : ℚ) * 5) ≤ 255 := by
  have hpos : (0 : ℚ) < (n : ℚ) * 5 := by positivity
  constructor
  · positivity
  · rw [div_le_iff₀ hpos]
    have : (S : ℚ) ≤ (n : ℚ) * (5 * 255) := by exact_mod_cast hS
    linarith

lemma sum_sq_dev_const {c : ℚ} {xs : List ℚ} (h : ∀ x ∈ xs, x = c) :
    (xs.map (fun x => (x - meanQ xs) ^ 2)).sum = 0 := by
  rcases eq_or_ne xs [] with rfl | hne
  · simp
  · have hlen : (xs.length : ℚ) ≠ 0 :=
      Nat.cast_ne_zero.mpr (fun h0 => hne (List.length_eq_zero.mp h0))
    have hmean : meanQ xs = c := by
      rw [meanQ, List.sum_eq_card_nsmul xs c h, nsmul_eq_mul]
      exact mul_div_cancel_left₀ c hlen
    apply List.sum_eq_zero
    intro x hx
    obtain ⟨y, hy, rfl⟩ := List.mem_map.mp hx
    rw [h y hy, hmean, sub_self]
    ring

lemma corrDenSq_const_left {c : ℚ} {xs ys : List ℚ} (h : ∀ x ∈ xs, x = c) :
    corrDenSq xs ys = 0 := by
  rw [corrDenSq, sum_sq_dev_const h, zero_mul]

lemma flattenRegion_const (c : ℕ) (rows cols : List ℕ) :
    ∀ x ∈ flattenRegion (fun _ _ => c) rows cols, x = (c : ℚ) := by
  intro x hx
  simp only [flattenRegion, List.mem_flatMap, List.mem_map] at hx
  obtain ⟨r, _, y, _, rfl⟩ := hx
  rfl

/-- C5 (amended): the rule-of-thirds line-alignment score is a mean of
8-bit edge values, lying in [0,255] (not [0,1]) for every edge map with
values at most 255; and a NaN correlation — as arises for any uniform
image region, where the variance is zero — is normalized to 0.0 in both
symmetry results, never propagated.  (Symmetry correlations are
Pearson coefficients and can also be negative, see the counterexample, so
neither score family is confined to [0,1].) -/
theorem C5_composition_score_ranges (edges : ℕ → ℕ → ℕ) (height width : ℕ)
    (hb : ∀ r c, edges r c ≤ 255) (hh : 0 < height) (hw : 0 < width) (c : ℕ) :
    (0 ≤ (analyzeRuleOfThirds edges height width).lineAlignmentScore
      ∧ (analyzeRuleOfThirds edges height width).lineAlignmentScore ≤ 255)
  ∧ verticalSymmetry (fun _ _ => c) height width = 0
  ∧ horizontalSymmetry (fun _ _ => c) height width = 0 := by
  refine ⟨?_, ?_, ?_⟩
  · have hv1 := density_bounds (S := bandSumCols edges height (width / 3 - 2)
        (width / 3 + 3) width) hh
      (bandSumCols_le edges height _ _ width hb (by omega))
    have hv2 := density_bounds (S := bandSumCols edges height (2 * width / 3 - 2)
        (2 * width / 3 + 3) width) hh
      (bandSumCols_le edges height _ _ width hb (by omega))
    have hh1 := density_bounds (S := bandSumRows edges width (height / 3 - 2)
        (height / 3 + 3) height) hw
      (bandSumRows_le edges width _ _ height hb (by omega))
    have hh2 := density_bounds (S := bandSumRows edges width (2 * height / 3 - 2)
        (2 * height / 3 + 3) height) hw
      (bandSumRows_le edges width _ _ height hb (by omega))
    simp only [analyzeRuleOfThirds]
    constructor
    · have := hv1.1
      have := hv2.1
      have := hh1.1
      have := hh2.1
      positivity
    · rw [div_le_iff₀ (by norm_num : (0 : ℚ) < 4)]
      linarith [hv1.2, hv2.2, hh1.2, hh2.2]
  · simp only [verticalSymmetry]
    rw [corrcoefQ, if_pos (corrDenSq_const_left (flattenRegion_const c _ _))]
    rfl
  · simp only [horizontalSymmetry]
    rw [corrcoefQ, if_pos (corrDenSq_const_left (flattenRegion_const c _ _))]
    rfl

/-- C5 witness: the all-zero 15×15 edge map and the uniform gray level 7
satisfy the amended score ranges. -/
theorem C5_composition_score_ranges_witness :
    (0 ≤ (analyzeRuleOfThirds (fun _ _ => 0) 15 15).lineAlignmentScore
      ∧ (analyzeRuleOfThirds (fun _ _ => 0) 15 15).lineAlignmentScore ≤ 255)
  ∧ verticalSymmetry (fun _ _ => 7) 15 15 = 0
  ∧ horizontalSymmetry (fun _ _ => 7) 15 15 = 0 :=
  C5_composition_score_ranges (fun _ _ => 0) 15 15 (fun _ _ => Nat.zero_le 255)
    (by decide) (by decide) 7

/-- C5 counterexample: on the saturated 15×15 Canny edge map (every value
255) the rule-of-thirds line-alignment score evaluates to 255, far
outside [0,1]; and on a 2×2 checkerboard grayscale image the vertical
symmetry correlation evaluates to −1, which is negative — refuting
"the rule-of-thirds score and the symmetry scores are always in
[0,1]". -/
theorem C5_counterexample_scores_outside_unit_interval :
    (analyzeRuleOfThirds (fun _ _ => 255) 15 15).lineAlignmentScore = 255
  ∧ ¬((analyzeRuleOfThirds (fun _ _ => 255) 15 15).lineAlignmentScore ≤ 1)
  ∧ verticalSymmetry (fun r c => if (r + c) % 2 = 0 then 0 else 2) 2 2 = -1
  ∧ verticalSymmetry (fun r c => if (r + c) % 2 = 0 then 0 else 2) 2 2 < 0 := by
  have hv1 : bandSumCols (fun _ _ => 255) 15 (15 / 3 - 2) (15 / 3 + 3) 15 = 19125 := by
    decide
  have hv2 : bandSumCols (fun _ _ => 255) 15 (2 * 15 / 3 - 2) (2 * 15 / 3 + 3) 15
      = 19125 := by decide
  have hh1 : bandSumRows (fun _ _ => 255) 15 (15 / 3 - 2) (15 / 3 + 3) 15 = 19125 := by
    decide
  have hh2 : bandSumRows (fun _ _ => 255) 15 (2 * 15 / 3 - 2) (2 * 15 / 3 + 3) 15
      = 19125 := by decide
  have hscore : (analyzeRuleOfThirds (fun _ _ => 255) 15 15).lineAlignmentScore = 255 := by
    simp only [analyzeRuleOfThirds, hv1, hv2, hh1, hh2]
    norm_num
  have hxs : flattenRegion (fun r c => if (r + c) % 2 = 0 then 0 else 2)
      (List.range 2) (List.range (2 / 2)) = [(0 : ℚ), 2] := by
    norm_num [flattenRegion, List.range_succ]
  have hys : flattenRegion (fun r c => if (r + c) % 2 = 0 then 0 else 2)
      (List.range 2) ((List.range (2 / 2)).map (fun j => 2 - 1 - j)) = [(2 : ℚ), 0] := by
    norm_num [flattenRegion, List.range_succ]
  have hsqrt4 : Nat.sqrt 4 = 2 := by
    rw [show (4 : ℕ) = 2 * 2 from rfl]
    exact Nat.sqrt_eq 2
  have hsym : verticalSymmetry (fun r c => if (r + c) % 2 = 0 then 0 else 2) 2 2 = -1 := by
    simp only [verticalSymmetry, hxs, hys]
    rw [corrcoefQ]
    have hden : corrDenSq [(0 : ℚ), 2] [(2 : ℚ), 0] = 4 := by
      norm_num [corrDenSq, meanQ]
    have hnum : corrNum [(0 : ℚ), 2] [(2 : ℚ), 0] = -2 := by
      norm_num [corrNum, meanQ, List.zip]
    rw [if_neg (by rw [hden]; norm_num), hnum, hden]
    norm_num [sqrtQ]
    rw [show Int.toNat 4 = 4 by decide, hsqrt4]
    norm_num
  exact ⟨hscore, by rw [hscore]; norm_num, hsym, by rw [hsym]; norm_num⟩

end Pinmaker
